import Mathlib

/-!
Shallow embedding of the CloudPulse backend (Go) and proofs about it.

The repository contains two versions of the backend `main.go`:
  * `src/backend/main.go` (logs "CloudPulse Backend v2"), embedded below with
    the plain names (`getSecret`, `ec2UsageHandler`, ...);
  * `src/unnamed/part_004` (logs "CloudPulse Backend v3 (Corrected)"), embedded
    with a `V3` suffix where the two versions differ.

Conventions of the embedding:
  * Go strings are Lean `String`s; `strings.Split`/`strings.Join` on the `"/"`
    separator are embedded as the structurally recursive `goSplit`/`joinWith`.
  * Go `float64` metric values are embedded as `Rat` (they are only passed
    through, never computed on).
  * `time.Time` values are embedded as `GoTime`, carrying their RFC3339
    rendering; `t.Format(time.RFC3339)` is `GoTime.formatRFC3339 t`.
  * A Go index access `xs[0]` is embedded as `xs[0]?`; an out-of-range access
    (a Go runtime panic) is propagated as `Option.none` through the
    construction that performs it.
  * External calls (Vault reads, CloudWatch `GetMetricData`, GitHub
    `ListCollaborators`, the EC2 metadata service) are oracles passed to the
    embedded functions as explicit arguments; handlers additionally return the
    list of CloudWatch queries they issued, so that "no query was made" is a
    statement about the result.
  * `http.Error` from the Go standard library deletes `Content-Length` and
    overwrites `Content-Type` with `"text/plain; charset=utf-8"` and sets
    `X-Content-Type-Options: nosniff` before writing `msg ++ "\n"`; `httpError`
    embeds exactly that.
  * A Go nil slice is distinguished from an empty one by `GoSlice α :=
    Option (List α)`; `encoding/json` renders a nil slice as `null`.
-/

/-- Splits a list of characters on the separator character, Go
`strings.Split` style: the result always has at least one element, and
splitting the empty string yields `[""]`. -/
def splitOnChar (c : Char) : List Char → List (List Char)
  | [] => [[]]
  | x :: xs =>
    let r := splitOnChar c xs
    if x = c then [] :: r
    else
      match r with
      | y :: ys => (x :: y) :: ys
      | [] => [[x]]

/-- Go `strings.Split(s, sep)` for a one-character separator. -/
def goSplit (s : String) (c : Char) : List String :=
  (splitOnChar c s.toList).map String.mk

/-- Go `strings.Join(parts, sep)`. -/
def joinWith (sep : String) : List String → String
  | [] => ""
  | [x] => x
  | x :: xs => x ++ sep ++ joinWith sep xs

/-- Go `strings.SplitN(s, sep, 2)` for a one-character separator: at most two
parts, the second keeping any further separators. -/
def goSplitN2 (s : String) (c : Char) : List String :=
  match goSplit s c with
  | [] => []
  | [a] => [a]
  | a :: rest => [a, joinWith (String.mk [c]) rest]

/-- A value stored under a key of a Vault KV-v2 secret: Go
`map[string]interface{}` values are either strings or something else. -/
inductive VaultVal where
  | str (s : String)
  | nonstr
deriving DecidableEq

/-- The `Data` map of a Vault secret. -/
abbrev VaultData := List (String × VaultVal)

/-- Outcome of `vaultClient.KVv2(mount).Get(ctx, path)`: a transport error, a
nil secret / nil `Data` map, or a data map. -/
inductive VaultGetResult where
  | err (e : String)
  | noData
  | data (d : VaultData)

/-- The secret store as an oracle: mount path and sub-path to a get result. -/
abbrev Store := String → String → VaultGetResult

/-- Go map read `d[key]`. -/
def lookupVal : VaultData → String → Option VaultVal
  | [], _ => none
  | (k', v) :: rest, k => if k' = k then some v else lookupVal rest k

/-- The `getSecret` of `src/backend/main.go`: mount is
`strings.Split(secretPath, "/")[0]`, the sub-path is
`strings.Join(strings.Split(secretPath, "/")[1:], "/")`. `strings.Split` with
a non-empty separator always returns at least one element, so the `[0]` index
is safe and is embedded as `headD ""`. The nil-client receiver check is the
`clientInit` flag. -/
def getSecret (clientInit : Bool) (store : Store) (secretPath key : String) :
    Except String String :=
  if clientInit = false then
    Except.error "vault client not initialized"
  else
    let parts := goSplit secretPath '/'
    let mount := parts.headD ""
    let sub := joinWith "/" parts.tail
    match store mount sub with
    | VaultGetResult.err e =>
        Except.error ("failed to get secret from Vault (path: " ++ secretPath ++ "): " ++ e)
    | VaultGetResult.noData =>
        Except.error ("no data found at secret path '" ++ secretPath ++ "'")
    | VaultGetResult.data d =>
        match lookupVal d key with
        | some (VaultVal.str v) => Except.ok v
        | _ =>
            Except.error ("secret key '" ++ key ++ "' not found or not a string in path '"
              ++ secretPath ++ "'")

/-- The `getSecret` of `src/unnamed/part_004`: `strings.SplitN(secretPath, "/", 2)`
followed by a format check `len(parts) != 2`; `parts[0]` and `parts[1]` are
embedded as `headD ""` on the list and its tail. -/
def getSecretV3 (clientInit : Bool) (store : Store) (secretPath key : String) :
    Except String String :=
  if clientInit = false then
    Except.error "vault client not initialized"
  else
    let parts := goSplitN2 secretPath '/'
    if parts.length ≠ 2 then
      Except.error ("invalid secret path format '" ++ secretPath ++ "', expected 'mount/path'")
    else
      let mountPath := parts.headD ""
      let pathWithinMount := parts.tail.headD ""
      match store mountPath pathWithinMount with
      | VaultGetResult.err e =>
          Except.error ("failed to get secret from Vault (path: " ++ secretPath ++ "): " ++ e)
      | VaultGetResult.noData =>
          Except.error ("no data found at secret path '" ++ secretPath ++ "'")
      | VaultGetResult.data d =>
          match lookupVal d key with
          | some (VaultVal.str v) => Except.ok v
          | _ =>
              Except.error ("secret key '" ++ key ++ "' not found or not a string in path '"
                ++ secretPath ++ "'")

/-- A store holding a `github_token` at mount `"kv"` under the empty sub-path,
used to separate the two `getSecret` versions on a one-segment path. -/
def storeCex : Store := fun mount sub =>
  if mount = "kv" ∧ sub = "" then VaultGetResult.data [("github_token", VaultVal.str "tok")]
  else VaultGetResult.noData

/-- HTTP headers as an ordered list of name-value pairs; `headerSet` is Go
`Header.Set` (replace the existing entry, else append). -/
abbrev Headers := List (String × String)

/-- Go `Header.Set(k, v)`. -/
def headerSet : Headers → String → String → Headers
  | [], k, v => [(k, v)]
  | (k', v') :: rest, k, v =>
    if k' = k then (k, v) :: rest else (k', v') :: headerSet rest k v

/-- Go `Header.Del(k)`. -/
def headerDel : Headers → String → Headers
  | [], _ => []
  | (k', v') :: rest, k =>
    if k' = k then headerDel rest k else (k', v') :: headerDel rest k

/-- Go `Header.Get(k)` (as an `Option` to distinguish an absent header). -/
def headerGet : Headers → String → Option String
  | [], _ => none
  | (k', v') :: rest, k => if k' = k then some v' else headerGet rest k

/-- Metric values (`float64` in Go, only ever passed through). -/
abbrev MetricValue := Rat

/-- A `time.Time`, carried as its RFC3339 rendering. -/
structure GoTime where
  rfc3339 : String
deriving DecidableEq

/-- Go `t.Format(time.RFC3339)`. -/
def GoTime.formatRFC3339 (t : GoTime) : String := t.rfc3339

/-- A JSON value appearing in the response maps of the handlers. -/
inductive JVal where
  | str (s : String)
  | num (x : MetricValue)
deriving DecidableEq

/-- The `map[string]interface{}` result a handler encodes, as an ordered
association list with Go map write semantics (`mapSet` overwrites). -/
abbrev JMap := List (String × JVal)

/-- Go map assignment `m[k] = v`. -/
def mapSet : JMap → String → JVal → JMap
  | [], k, v => [(k, v)]
  | (k', v') :: rest, k, v =>
    if k' = k then (k, v) :: rest else (k', v') :: mapSet rest k v

/-- Go map read `m[k]`. -/
def jLookup : JMap → String → Option JVal
  | [], _ => none
  | (k', v') :: rest, k => if k' = k then some v' else jLookup rest k

/-- A collaborator record as returned by the GitHub API: the Go struct has
pointer-typed fields, `nil` embedded as `none`. -/
structure GoUser where
  Login : Option String
  AvatarURL : Option String
  HTMLURL : Option String
  RoleName : Option String
deriving DecidableEq

/-- The backend `UserInfo` struct (all four fields plain strings, serialized
under the json tags `login`, `avatar_url`, `html_url`, `role_name`, none of
them `omitempty`). -/
structure UserInfo where
  login : String
  avatar_url : String
  html_url : String
  role_name : String
deriving DecidableEq

/-- A Go slice that distinguishes nil (`none`) from a non-nil slice. -/
abbrev GoSlice (α : Type) := Option (List α)

/-- The elements of a Go slice (nil and empty both have none). -/
def sliceList {α : Type} : GoSlice α → List α
  | none => []
  | some l => l

/-- Go `append(s, x)`: appending to a nil slice allocates a non-nil one. -/
def goAppend {α : Type} (s : GoSlice α) (x : α) : GoSlice α :=
  some (sliceList s ++ [x])

/-- One `MetricDataResult` of the CloudWatch `GetMetricData` response (the SDK
always populates `Id`, so it is embedded as a plain string). -/
structure MetricDataResult where
  Id : String
  Values : List MetricValue
  Timestamps : List GoTime
deriving DecidableEq

/-- A CloudWatch metric dimension. -/
structure Dimension where
  Name : String
  Value : String
deriving DecidableEq

/-- The metric identity of one query. -/
structure CWMetric where
  Namespace : String
  MetricName : String
  Dimensions : List Dimension
deriving DecidableEq

/-- The `MetricStat` of one query. -/
structure CWMetricStat where
  Metric : CWMetric
  Period : Int
  Stat : String
deriving DecidableEq

/-- One entry of `MetricDataQueries`. -/
structure MetricDataQuery where
  Id : String
  MetricStat : CWMetricStat
  ReturnData : Bool
deriving DecidableEq

/-- The three fixed queries `ec2UsageHandler` builds: 5-minute average CPU
utilization and summed network in/out, all filtered on the `InstanceId`
dimension set to the resolved identity. -/
def metricQueries (instanceID : String) : List MetricDataQuery :=
  [ { Id := "cpu",
      MetricStat :=
        { Metric :=
            { Namespace := "AWS/EC2", MetricName := "CPUUtilization",
              Dimensions := [{ Name := "InstanceId", Value := instanceID }] },
          Period := 300, Stat := "Average" },
      ReturnData := true },
    { Id := "netIn",
      MetricStat :=
        { Metric :=
            { Namespace := "AWS/EC2", MetricName := "NetworkIn",
              Dimensions := [{ Name := "InstanceId", Value := instanceID }] },
          Period := 300, Stat := "Sum" },
      ReturnData := true },
    { Id := "netOut",
      MetricStat :=
        { Metric :=
            { Namespace := "AWS/EC2", MetricName := "NetworkOut",
              Dimensions := [{ Name := "InstanceId", Value := instanceID }] },
          Period := 300, Stat := "Sum" },
      ReturnData := true } ]

/-- A response body: a raw `http.Error` text, an encoded
`map[string]interface{}`, or an encoded `[]UserInfo` slice. -/
inductive Body where
  | text (s : String)
  | jsonObj (fields : JMap)
  | jsonUsers (users : GoSlice UserInfo)
deriving DecidableEq

/-- An HTTP response as observed by the client. -/
structure Response where
  headers : Headers
  status : Nat
  body : Body
deriving DecidableEq

/-- Go `http.Error(w, msg, code)`: deletes `Content-Length`, overwrites
`Content-Type` with `text/plain; charset=utf-8`, sets
`X-Content-Type-Options: nosniff`, writes the status code and `msg ++ "\n"`. -/
def httpError (h : Headers) (msg : String) (code : Nat) : Response :=
  { headers :=
      headerSet
        (headerSet (headerDel h "Content-Length") "Content-Type" "text/plain; charset=utf-8")
        "X-Content-Type-Options" "nosniff",
    status := code,
    body := Body.text (msg ++ "\n") }

/-- The two headers every handler sets first. -/
def apiHeaders : Headers :=
  headerSet (headerSet [] "Content-Type" "application/json") "Access-Control-Allow-Origin" "*"

/-- The CloudWatch `GetMetricData` call as an oracle: the issued queries to
either an SDK error or the list of `MetricDataResults`. -/
abbrev CWOracle := List MetricDataQuery → Except String (List MetricDataResult)

/-- One iteration of the result loop in `src/backend/main.go`'s
`ec2UsageHandler`: the guard checks `len(mdr.Values) > 0 &&
len(mdr.Timestamps) > 0` before indexing `Values[0]` and `Timestamps[0]`;
`none` would mean an out-of-range access. -/
def seriesStepV2 (m : JMap) (mdr : MetricDataResult) : Option JMap :=
  if 0 < mdr.Values.length ∧ 0 < mdr.Timestamps.length then
    match mdr.Values[0]?, mdr.Timestamps[0]? with
    | some v, some t =>
        some (mapSet (mapSet m mdr.Id (JVal.num v))
          (mdr.Id ++ "_Timestamp") (JVal.str t.formatRFC3339))
    | _, _ => none
  else
    some (mapSet m mdr.Id (JVal.str "N/A"))

/-- One iteration of the result loop in `src/unnamed/part_004`'s
`ec2UsageHandler`: the guard checks only `len(mdr.Values) > 0`, yet the body
also indexes `Timestamps[0]`; `none` means that access was out of range. -/
def seriesStepV3 (m : JMap) (mdr : MetricDataResult) : Option JMap :=
  if 0 < mdr.Values.length then
    match mdr.Values[0]?, mdr.Timestamps[0]? with
    | some v, some t =>
        some (mapSet (mapSet m mdr.Id (JVal.num v))
          (mdr.Id ++ "_Timestamp") (JVal.str t.formatRFC3339))
    | _, _ => none
  else
    some (mapSet m mdr.Id (JVal.str "N/A"))

/-- The `for _, mdr := range resp.MetricDataResults` loop, propagating a panic
from any iteration. -/
def foldSteps (step : JMap → MetricDataResult → Option JMap) :
    JMap → List MetricDataResult → Option JMap
  | m, [] => some m
  | m, r :: rs =>
    match step m r with
    | none => none
    | some m' => foldSteps step m' rs

/-- The response map `src/backend/main.go`'s `ec2UsageHandler` builds from the
CloudWatch results: `InstanceID` first, then the per-series loop, then the
informational message when the result list is empty. -/
def ec2ResultMap (instanceID : String) (results : List MetricDataResult) : Option JMap :=
  match foldSteps seriesStepV2 (mapSet [] "InstanceID" (JVal.str instanceID)) results with
  | none => none
  | some m =>
      some (if results.length = 0 then
        mapSet m "message" (JVal.str
          "No metric data returned from CloudWatch. This can happen if the instance is new or metrics are not yet available.")
      else m)

/-- Same for `src/unnamed/part_004` (shorter message, unguarded timestamp
index). -/
def ec2ResultMapV3 (instanceID : String) (results : List MetricDataResult) : Option JMap :=
  match foldSteps seriesStepV3 (mapSet [] "InstanceID" (JVal.str instanceID)) results with
  | none => none
  | some m =>
      some (if results.length = 0 then
        mapSet m "message" (JVal.str "No metric data returned from CloudWatch.")
      else m)

/-- The `ec2UsageHandler` of `src/backend/main.go`. Arguments: whether `cwClient`
is non-nil, the resolved `instanceID`, and the CloudWatch oracle. Returns
`none` for a panic, otherwise the response together with the list of
`GetMetricData` inputs issued. -/
def ec2UsageHandler (cwInit : Bool) (instanceID : String) (cw : CWOracle) :
    Option (Response × List (List MetricDataQuery)) :=
  if cwInit = false then
    some (httpError apiHeaders "\x7b\"error\": \"AWS client not initialized\"\x7d" 500, [])
  else if instanceID = "" then
    some (httpError apiHeaders
      "\x7b\"error\": \"EC2 Instance ID not determined. Metrics unavailable.\"\x7d" 503, [])
  else
    let qs := metricQueries instanceID
    match cw qs with
    | Except.error e =>
        some (httpError apiHeaders
          ("\x7b\"error\": \"Error getting CloudWatch data: " ++ e ++ "\"\x7d") 500, [qs])
    | Except.ok results =>
        match ec2ResultMap instanceID results with
        | none => none
        | some m =>
            some ({ headers := apiHeaders, status := 200, body := Body.jsonObj m }, [qs])

/-- The `ec2UsageHandler` of `src/unnamed/part_004`; identical apart from the
per-series guard and the empty-results message. -/
def ec2UsageHandlerV3 (cwInit : Bool) (instanceID : String) (cw : CWOracle) :
    Option (Response × List (List MetricDataQuery)) :=
  if cwInit = false then
    some (httpError apiHeaders "\x7b\"error\": \"AWS client not initialized\"\x7d" 500, [])
  else if instanceID = "" then
    some (httpError apiHeaders
      "\x7b\"error\": \"EC2 Instance ID not determined. Metrics unavailable.\"\x7d" 503, [])
  else
    let qs := metricQueries instanceID
    match cw qs with
    | Except.error e =>
        some (httpError apiHeaders
          ("\x7b\"error\": \"Error getting CloudWatch data: " ++ e ++ "\"\x7d") 500, [qs])
    | Except.ok results =>
        match ec2ResultMapV3 instanceID results with
        | none => none
        | some m =>
            some ({ headers := apiHeaders, status := 200, body := Body.jsonObj m }, [qs])

/-- Go `safeDeref`: dereference a string pointer, `""` if nil. -/
def safeDeref : Option String → String
  | some s => s
  | none => ""

/-- The `UserInfo` built from one collaborator record. -/
def mkUserInfo (u : GoUser) : UserInfo :=
  { login := safeDeref u.Login,
    avatar_url := safeDeref u.AvatarURL,
    html_url := safeDeref u.HTMLURL,
    role_name := safeDeref u.RoleName }

/-- The `var userInfos []UserInfo` / `append` loop of `githubUsersHandler`:
starts from the nil slice. -/
def buildUserInfos (users : List GoUser) : GoSlice UserInfo :=
  users.foldl (fun acc u => goAppend acc (mkUserInfo u)) none

/-- The fields `encoding/json` emits for one `UserInfo`: all four keys,
always, in struct declaration order (no `omitempty`). -/
def userInfoFields (r : UserInfo) : List (String × String) :=
  [("login", r.login), ("avatar_url", r.avatar_url),
   ("html_url", r.html_url), ("role_name", r.role_name)]

/-- A JSON string literal (escaping elided; no input under consideration
contains characters that need it). -/
def jstr (s : String) : String := "\"" ++ s ++ "\""

/-- The `encoding/json` output for one `UserInfo`. -/
def encodeUserInfo (r : UserInfo) : String :=
  "\x7b" ++ joinWith "," ((userInfoFields r).map (fun p => jstr p.1 ++ ":" ++ jstr p.2)) ++ "\x7d"

/-- Behavior of `json.NewEncoder(w).Encode` on a `[]UserInfo` value: a nil slice encodes
as the JSON literal `null`, a non-nil one as an array; the encoder appends a
newline. -/
def encodeUsersJSON : GoSlice UserInfo → String
  | none => "null\n"
  | some l => "[" ++ joinWith "," (l.map encodeUserInfo) ++ "]\n"

/-- The `githubUsersHandler` (identical in both backend versions). Arguments:
whether `githubClient` is non-nil and the outcome of
`ListCollaborators(owner, repo, PerPage: 100)`. -/
def githubUsersHandler (ghInit : Bool) (listCollab : Except String (List GoUser)) : Response :=
  if ghInit = false then
    httpError apiHeaders "\x7b\"error\": \"GitHub client not initialized\"\x7d" 500
  else
    match listCollab with
    | Except.error e =>
        httpError apiHeaders
          ("\x7b\"error\": \"Error getting GitHub users: " ++ e ++ "\"\x7d") 500
    | Except.ok users =>
        { headers := apiHeaders, status := 200, body := Body.jsonUsers (buildUserInfos users) }

/-- An inbound HTTP request (the handlers never inspect it). -/
structure Request where
  method : String
  path : String
deriving DecidableEq

/-- The inline `/api/free-tier-usage` handler of `src/backend/main.go`: a
static message, no external call; the second component lists the external
calls performed (there are none in the source). -/
def freeTierHandler (_r : Request) : Response × List String :=
  ({ headers := apiHeaders, status := 200,
     body := Body.jsonObj [("message", JVal.str
       "Monitor AWS Free Tier usage via AWS Budgets and the Billing Console. Programmatic access can incur costs.")] },
   [])

/-- The environment variables `src/backend/main.go` reads (absent = `""`,
matching Go `os.Getenv`). -/
structure Env where
  VAULT_TOKEN : String
  GITHUB_OWNER : String
  GITHUB_REPO : String
  PORT : String
  EC2_INSTANCE_ID_OVERRIDE : String
deriving DecidableEq

/-- The external world at startup: outcomes of `vault.NewClient`,
`config.LoadDefaultConfig`, the EC2 metadata query, and the secret store. -/
structure World where
  vaultNewClient : Except String Unit
  awsLoadConfig : Except String Unit
  ec2Metadata : Except String String
  vaultStore : Store

/-- Outcome of `main`: a `log.Fatalf` during the initialization chain, or
reaching `http.ListenAndServe` on the chosen port. -/
inductive StartupResult where
  | fatalStartup (msg : String)
  | listening (port : String)

/-- True when `main` exited fatally before reaching `ListenAndServe`. -/
def StartupResult.isFatal : StartupResult → Bool
  | StartupResult.fatalStartup _ => true
  | StartupResult.listening _ => false

/-- The `initVault` of `src/backend/main.go`: create the client, then require a
non-empty `VAULT_TOKEN`. -/
def initVault (env : Env) (w : World) : Except String Unit :=
  match w.vaultNewClient with
  | Except.error e => Except.error ("failed to create vault client: " ++ e)
  | Except.ok _ =>
      if env.VAULT_TOKEN = "" then
        Except.error "VAULT_TOKEN environment variable not set"
      else
        Except.ok ()

/-- The `initAWS` of `src/backend/main.go`: fails only if the AWS config cannot be
loaded; a metadata failure falls back to `EC2_INSTANCE_ID_OVERRIDE` (possibly
leaving the identity empty) and still succeeds. Returns the resolved
`instanceID`. -/
def initAWS (env : Env) (w : World) : Except String String :=
  match w.awsLoadConfig with
  | Except.error e => Except.error ("failed to load AWS config: " ++ e)
  | Except.ok _ =>
      match w.ec2Metadata with
      | Except.error _ => Except.ok env.EC2_INSTANCE_ID_OVERRIDE
      | Except.ok id => Except.ok id

/-- The `initGitHub` of `src/backend/main.go`: fetch `github_token` from Vault at
`kv/cloudpulse` (the Vault client is initialized at this point of the chain),
then require `GITHUB_OWNER` and `GITHUB_REPO`. -/
def initGitHub (env : Env) (w : World) : Except String Unit :=
  match getSecret true w.vaultStore "kv/cloudpulse" "github_token" with
  | Except.error e => Except.error ("failed to get GitHub token from Vault: " ++ e)
  | Except.ok _ =>
      if env.GITHUB_OWNER = "" ∨ env.GITHUB_REPO = "" then
        Except.error "GITHUB_OWNER and GITHUB_REPO environment variables must be set"
      else
        Except.ok ()

/-- The startup chain of `main` in `src/backend/main.go`: Vault, then AWS,
then GitHub, each failure a `log.Fatalf`; only after all three does the
process bind the listener on `PORT` (default `"8080"`). -/
def runMain (env : Env) (w : World) : StartupResult :=
  match initVault env w with
  | Except.error e => StartupResult.fatalStartup ("FATAL: Failed to initialize Vault: " ++ e)
  | Except.ok _ =>
      match initAWS env w with
      | Except.error e => StartupResult.fatalStartup ("FATAL: Failed to initialize AWS SDK: " ++ e)
      | Except.ok _instanceID =>
          match initGitHub env w with
          | Except.error e =>
              StartupResult.fatalStartup ("FATAL: Failed to initialize GitHub client: " ++ e)
          | Except.ok _ =>
              StartupResult.listening (if env.PORT = "" then "8080" else env.PORT)

/-- Whether `pat` occurs at the front of `l`. -/
def startsWithL (pat l : List Char) : Bool :=
  match pat, l with
  | [], _ => true
  | _ :: _, [] => false
  | p :: ps, x :: xs => p == x && startsWithL ps xs

/-- Whether `pat` occurs as a contiguous substring of `l`. -/
def containsSub (pat : List Char) : List Char → Bool
  | [] => startsWithL pat []
  | x :: xs => startsWithL pat (x :: xs) || containsSub pat xs

/-- Whether the string `s` mentions `pat` as a substring. -/
def mentions (pat s : String) : Bool := containsSub pat.toList s.toList

/-- The literal text a response body carries on the wire (an `http.Error`
body verbatim, a user slice through its encoder; object bodies are stated
structurally in the theorems and render through the generic JSON encoder). -/
def bodyText : Body → String
  | Body.text s => s
  | Body.jsonObj _ => ""
  | Body.jsonUsers u => encodeUsersJSON u

/-- A store holding a `github_token` under mount `"kv"`, sub-path
`"cloudpulse"` — the layout the backend actually uses. -/
def storeKV2 : Store := fun mount sub =>
  if mount = "kv" ∧ sub = "cloudpulse" then
    VaultGetResult.data [("github_token", VaultVal.str "tok")]
  else VaultGetResult.noData

/-- A CloudWatch oracle answering every query with one datapoint for each of
the three series. -/
def cwOk : CWOracle := fun _ => Except.ok
  [ { Id := "cpu", Values := [5], Timestamps := [{ rfc3339 := "2024-01-01T00:00:00Z" }] },
    { Id := "netIn", Values := [100], Timestamps := [{ rfc3339 := "2024-01-01T00:00:00Z" }] },
    { Id := "netOut", Values := [200], Timestamps := [{ rfc3339 := "2024-01-01T00:05:00Z" }] } ]

/-- An environment with `VAULT_TOKEN` missing and the other required
variables present. -/
def env0 : Env :=
  { VAULT_TOKEN := "", GITHUB_OWNER := "owner", GITHUB_REPO := "repo",
    PORT := "", EC2_INSTANCE_ID_OVERRIDE := "" }

/-- A healthy external world at startup (only the metadata service is down,
which `initAWS` tolerates). -/
def w0 : World :=
  { vaultNewClient := Except.ok (), awsLoadConfig := Except.ok (),
    ec2Metadata := Except.error "metadata unavailable", vaultStore := storeKV2 }

/-- Reading back a key just written into a Go map finds the written value. -/
theorem jLookup_mapSet_self (m : JMap) (k : String) (v : JVal) :
    jLookup (mapSet m k v) k = some v := by
  induction m with
  | nil => simp [mapSet, jLookup]
  | cons p rest ih =>
    obtain ⟨k', v'⟩ := p
    by_cases h : k' = k
    · simp [mapSet, jLookup, h]
    · simp [mapSet, jLookup, h, ih]

/-- Writing one key of a Go map leaves reads of any other key unchanged. -/
theorem jLookup_mapSet_ne (m : JMap) (k k' : String) (v : JVal) (h : k' ≠ k) :
    jLookup (mapSet m k v) k' = jLookup m k' := by
  induction m with
  | nil => simp [mapSet, jLookup, Ne.symm h]
  | cons p rest ih =>
    obtain ⟨k0, v0⟩ := p
    by_cases h0 : k0 = k
    · subst h0
      simp [mapSet, jLookup, Ne.symm h]
    · simp [mapSet, jLookup, h0, ih]

/-- A series id never collides with its own timestamp key. -/
theorem ne_timestamp (s : String) : s ≠ s ++ "_Timestamp" := by
  intro h
  have hlen := congrArg String.length h
  rw [String.length_append] at hlen
  have h10 : ("_Timestamp" : String).length = 10 := rfl
  omega

/-- The append loop over collaborators produces exactly the per-record map of
`mkUserInfo`, for any starting slice. -/
theorem buildUserInfos_go (users : List GoUser) :
    ∀ acc : GoSlice UserInfo,
      sliceList (users.foldl (fun a u => goAppend a (mkUserInfo u)) acc)
        = sliceList acc ++ users.map mkUserInfo := by
  induction users with
  | nil => intro acc; simp
  | cons u us ih =>
    intro acc
    simp only [List.foldl_cons, List.map_cons]
    rw [ih (goAppend acc (mkUserInfo u))]
    simp [goAppend, sliceList]

/-- The v2 per-series step never performs an out-of-range index: its guard
covers both lists. -/
theorem seriesStepV2_isSome (m : JMap) (mdr : MetricDataResult) :
    (seriesStepV2 m mdr).isSome = true := by
  unfold seriesStepV2
  rcases mdr with ⟨id, _ | ⟨v, vs⟩, _ | ⟨t, ts⟩⟩ <;> simp

/-- The v2 result loop is total for every list of results. -/
theorem foldSteps_v2_isSome (results : List MetricDataResult) :
    ∀ m : JMap, (foldSteps seriesStepV2 m results).isSome = true := by
  induction results with
  | nil => intro m; rfl
  | cons r rs ih =>
    intro m
    unfold foldSteps
    have h := seriesStepV2_isSome m r
    rcases hs : seriesStepV2 m r with _ | m'
    · rw [hs] at h; simp at h
    · simp only [hs]
      exact ih m'

/-- C1: with the CloudWatch client initialized but the resolved instance
identity empty, `GET /api/ec2-usage` answers HTTP 503 with a JSON body whose
`error` field mentions the instance ID, and no CloudWatch query is issued
(in particular none with a blank dimension value). -/
theorem ec2_identity_unresolved_returns_503 (cw : CWOracle) :
    ∃ resp : Response,
      ec2UsageHandler true "" cw = some (resp, [])
      ∧ resp.status = 503
      ∧ bodyText resp.body
          = "\x7b\"error\": \"EC2 Instance ID not determined. Metrics unavailable.\"\x7d\n"
      ∧ mentions "Instance ID" (bodyText resp.body) = true
      ∧ mentions "error" (bodyText resp.body) = true := by
  refine ⟨_, rfl, rfl, rfl, by decide, by decide⟩

/-- C2: when CloudWatch returns a datapoint for each of the three series, the
response map is exactly `InstanceID` plus three values and three RFC3339
timestamp fields — seven keys — each value being the first (most recent)
datapoint of its series, and `InstanceID` the resolved identity. -/
theorem ec2_all_series_seven_fields (iid : String) (cw : CWOracle)
    (v1 v2 v3 : MetricValue) (t1 t2 t3 : GoTime)
    (vs1 vs2 vs3 : List MetricValue) (ts1 ts2 ts3 : List GoTime)
    (hiid : ¬ iid = "")
    (hcw : cw (metricQueries iid) = Except.ok
      [ { Id := "cpu", Values := v1 :: vs1, Timestamps := t1 :: ts1 },
        { Id := "netIn", Values := v2 :: vs2, Timestamps := t2 :: ts2 },
        { Id := "netOut", Values := v3 :: vs3, Timestamps := t3 :: ts3 } ]) :
    ec2UsageHandler true iid cw = some
      ({ headers := apiHeaders, status := 200,
         body := Body.jsonObj
           [("InstanceID", JVal.str iid),
            ("cpu", JVal.num v1), ("cpu_Timestamp", JVal.str t1.formatRFC3339),
            ("netIn", JVal.num v2), ("netIn_Timestamp", JVal.str t2.formatRFC3339),
            ("netOut", JVal.num v3), ("netOut_Timestamp", JVal.str t3.formatRFC3339)] },
       [metricQueries iid]) := by
  unfold ec2UsageHandler
  rw [if_neg (by simp), if_neg hiid]
  simp only [hcw]
  simp [ec2ResultMap, foldSteps, seriesStepV2, mapSet]

/-- Witness for C2 at a concrete identity and concrete datapoints. -/
theorem ec2_all_series_seven_fields_witness :
    ¬ ("i-0123456789abcdef0" : String) = ""
    ∧ ec2UsageHandler true "i-0123456789abcdef0" cwOk = some
        ({ headers := apiHeaders, status := 200,
           body := Body.jsonObj
             [("InstanceID", JVal.str "i-0123456789abcdef0"),
              ("cpu", JVal.num 5),
              ("cpu_Timestamp", JVal.str (GoTime.formatRFC3339 { rfc3339 := "2024-01-01T00:00:00Z" })),
              ("netIn", JVal.num 100),
              ("netIn_Timestamp", JVal.str (GoTime.formatRFC3339 { rfc3339 := "2024-01-01T00:00:00Z" })),
              ("netOut", JVal.num 200),
              ("netOut_Timestamp", JVal.str (GoTime.formatRFC3339 { rfc3339 := "2024-01-01T00:05:00Z" }))] },
         [metricQueries "i-0123456789abcdef0"]) :=
  ⟨by decide,
   ec2_all_series_seven_fields "i-0123456789abcdef0" cwOk 5 100 200
     { rfc3339 := "2024-01-01T00:00:00Z" } { rfc3339 := "2024-01-01T00:00:00Z" }
     { rfc3339 := "2024-01-01T00:05:00Z" } [] [] [] [] [] [] (by decide) rfl⟩

/-- C3: a series with zero datapoints contributes the literal string `"N/A"`
for its field (never null, never a failure), and a series with at least one
datapoint contributes its latest numeric value plus its RFC3339 timestamp
field — so each per-series field is a union of number and sentinel string. -/
theorem ec2_series_na_or_latest_value (m : JMap) (mdr : MetricDataResult) :
    (mdr.Values = [] →
        seriesStepV2 m mdr = some (mapSet m mdr.Id (JVal.str "N/A"))
        ∧ jLookup (mapSet m mdr.Id (JVal.str "N/A")) mdr.Id = some (JVal.str "N/A"))
    ∧ (∀ (v : MetricValue) (vs : List MetricValue) (t : GoTime) (ts : List GoTime),
        mdr.Values = v :: vs → mdr.Timestamps = t :: ts →
        ∃ m', seriesStepV2 m mdr = some m'
          ∧ jLookup m' mdr.Id = some (JVal.num v)
          ∧ jLookup m' (mdr.Id ++ "_Timestamp") = some (JVal.str t.formatRFC3339)) := by
  constructor
  · intro hv
    have hstep : seriesStepV2 m mdr = some (mapSet m mdr.Id (JVal.str "N/A")) := by
      unfold seriesStepV2; rw [hv]; simp
    exact ⟨hstep, jLookup_mapSet_self _ _ _⟩
  · intro v vs t ts hv ht
    have hstep : seriesStepV2 m mdr
        = some (mapSet (mapSet m mdr.Id (JVal.num v)) (mdr.Id ++ "_Timestamp")
            (JVal.str t.formatRFC3339)) := by
      unfold seriesStepV2; rw [hv, ht]; simp
    refine ⟨_, hstep, ?_, jLookup_mapSet_self _ _ _⟩
    rw [jLookup_mapSet_ne _ _ _ _ (ne_timestamp mdr.Id), jLookup_mapSet_self]

/-- Witness for C3: an empty series yields the `"N/A"` sentinel, a one-point
series yields its value and timestamp. -/
theorem ec2_series_na_or_latest_value_witness :
    jLookup (mapSet [] "cpu" (JVal.str "N/A")) "cpu" = some (JVal.str "N/A")
    ∧ ∃ m', seriesStepV2 []
          { Id := "netIn", Values := [7], Timestamps := [{ rfc3339 := "2024-01-01T00:00:00Z" }] }
          = some m'
        ∧ jLookup m' "netIn" = some (JVal.num 7)
        ∧ jLookup m' ("netIn" ++ "_Timestamp")
            = some (JVal.str (GoTime.formatRFC3339 { rfc3339 := "2024-01-01T00:00:00Z" })) := by
  have h1 := (ec2_series_na_or_latest_value [] { Id := "cpu", Values := [], Timestamps := [] }).1 rfl
  have h2 := (ec2_series_na_or_latest_value []
      { Id := "netIn", Values := [7], Timestamps := [{ rfc3339 := "2024-01-01T00:00:00Z" }] }).2
    7 [] { rfc3339 := "2024-01-01T00:00:00Z" } [] rfl rfl
  exact ⟨h1.2, h2⟩

/-- C4: the `/api/github-users` output preserves the order and length of the
collaborator list, every record carries all four string fields (the struct
serializes all four keys, never omitting one), and a missing optional field
degrades to the empty string via `safeDeref`. -/
theorem github_users_preserves_order_and_fields (users : List GoUser) :
    githubUsersHandler true (Except.ok users)
      = { headers := apiHeaders, status := 200, body := Body.jsonUsers (buildUserInfos users) }
    ∧ sliceList (buildUserInfos users) = users.map mkUserInfo
    ∧ (sliceList (buildUserInfos users)).length = users.length
    ∧ (∀ a b c d : Option String,
         mkUserInfo { Login := a, AvatarURL := b, HTMLURL := c, RoleName := d }
           = { login := safeDeref a, avatar_url := safeDeref b,
               html_url := safeDeref c, role_name := safeDeref d })
    ∧ safeDeref none = ""
    ∧ (∀ r : UserInfo, (userInfoFields r).map Prod.fst
         = ["login", "avatar_url", "html_url", "role_name"]) := by
  have hb : sliceList (buildUserInfos users) = users.map mkUserInfo := by
    have := buildUserInfos_go users none
    simpa [buildUserInfos, sliceList] using this
  refine ⟨rfl, hb, ?_, fun a b c d => rfl, rfl, fun r => rfl⟩
  rw [hb]; simp

/-- C5 counterexample: an error response of `/api/ec2-usage` (here: the AWS
client is uninitialized) is written through `http.Error`, which overwrites the
`Content-Type` header with `text/plain; charset=utf-8`, so the response does
not carry `Content-Type: application/json` as the claim states. -/
theorem api_error_content_type_not_json_cex :
    ((ec2UsageHandler false "i-test" (fun _ => Except.error "boom")).map
        (fun pr => headerGet pr.1.headers "Content-Type"))
      = some (some "text/plain; charset=utf-8")
    ∧ ("text/plain; charset=utf-8" : String) ≠ "application/json" :=
  ⟨rfl, by decide⟩

/-- C5 amended: every response of the three API handlers carries
`Access-Control-Allow-Origin: *`; the 200 responses carry
`Content-Type: application/json`, while the error responses — written via
`http.Error` — carry `Content-Type: text/plain; charset=utf-8` instead. -/
theorem api_cors_always_json_on_success :
    (∀ (cwInit : Bool) (iid : String) (cw : CWOracle)
        (pr : Response × List (List MetricDataQuery)),
        ec2UsageHandler cwInit iid cw = some pr →
          headerGet pr.1.headers "Access-Control-Allow-Origin" = some "*"
          ∧ (pr.1.status = 200 →
              headerGet pr.1.headers "Content-Type" = some "application/json")
          ∧ (¬ pr.1.status = 200 →
              headerGet pr.1.headers "Content-Type" = some "text/plain; charset=utf-8"))
    ∧ (∀ (ghInit : Bool) (lc : Except String (List GoUser)),
        headerGet (githubUsersHandler ghInit lc).headers "Access-Control-Allow-Origin" = some "*"
        ∧ ((githubUsersHandler ghInit lc).status = 200 →
            headerGet (githubUsersHandler ghInit lc).headers "Content-Type"
              = some "application/json")
        ∧ (¬ (githubUsersHandler ghInit lc).status = 200 →
            headerGet (githubUsersHandler ghInit lc).headers "Content-Type"
              = some "text/plain; charset=utf-8"))
    ∧ (∀ r : Request,
        headerGet (freeTierHandler r).1.headers "Access-Control-Allow-Origin" = some "*"
        ∧ headerGet (freeTierHandler r).1.headers "Content-Type" = some "application/json") := by
  refine ⟨?_, ?_, ?_⟩
  · intro cwInit iid cw pr h
    by_cases h1 : cwInit = false
    · rw [ec2UsageHandler, if_pos h1] at h
      cases h
      exact ⟨rfl, fun hs => absurd hs (by decide : ¬ (500 : Nat) = 200), fun _ => rfl⟩
    · by_cases h2 : iid = ""
      · rw [ec2UsageHandler, if_neg h1, if_pos h2] at h
        cases h
        exact ⟨rfl, fun hs => absurd hs (by decide : ¬ (503 : Nat) = 200), fun _ => rfl⟩
      · rcases hcw : cw (metricQueries iid) with e | results
        · rw [ec2UsageHandler, if_neg h1, if_neg h2] at h
          simp only [hcw] at h
          cases h
          exact ⟨rfl, fun hs => absurd hs (by decide : ¬ (500 : Nat) = 200), fun _ => rfl⟩
        · rcases hm : ec2ResultMap iid results with _ | m
          · rw [ec2UsageHandler, if_neg h1, if_neg h2] at h
            simp only [hcw, hm] at h
            exact Option.noConfusion h
          · rw [ec2UsageHandler, if_neg h1, if_neg h2] at h
            simp only [hcw, hm] at h
            cases h
            exact ⟨rfl, fun _ => rfl, fun hs => absurd rfl hs⟩
  · intro ghInit lc
    cases ghInit with
    | false =>
      exact ⟨rfl, fun hs => absurd hs (by decide : ¬ (500 : Nat) = 200), fun _ => rfl⟩
    | true =>
      rcases lc with e | users
      · exact ⟨rfl, fun hs => absurd hs (by decide : ¬ (500 : Nat) = 200), fun _ => rfl⟩
      · exact ⟨rfl, fun _ => rfl, fun hs => absurd rfl hs⟩
  · intro r
    exact ⟨rfl, rfl⟩

/-- Witness for the amended C5 at a concrete uninitialized-client request. -/
theorem api_cors_always_json_on_success_witness :
    headerGet (httpError apiHeaders
        "\x7b\"error\": \"AWS client not initialized\"\x7d" 500).headers
      "Access-Control-Allow-Origin" = some "*" :=
  (api_cors_always_json_on_success.1 false "" (fun _ => Except.error "x")
    (httpError apiHeaders "\x7b\"error\": \"AWS client not initialized\"\x7d" 500, [])
    rfl).1

/-- Whenever a required environment variable is missing, the initialization
chain of `main` rejects somewhere before its end. -/
theorem startup_env_chain_fatal (env : Env) (w : World)
    (h : env.VAULT_TOKEN = "" ∨ env.GITHUB_OWNER = "" ∨ env.GITHUB_REPO = "") :
    (runMain env w).isFatal = true := by
  unfold runMain
  rcases h1 : initVault env w with e | u
  · rfl
  · rcases h2 : initAWS env w with e | iid
    · rfl
    · rcases h3 : initGitHub env w with e | u3
      · rfl
      · exfalso
        rcases h with hv | ho | hr
        · unfold initVault at h1
          rcases hnc : w.vaultNewClient with e' | u' <;> rw [hnc] at h1
          · exact Except.noConfusion h1
          · rw [if_pos hv] at h1; exact Except.noConfusion h1
        · unfold initGitHub at h3
          rcases hgs : getSecret true w.vaultStore "kv/cloudpulse" "github_token"
            with e' | tok <;> rw [hgs] at h3
          · exact Except.noConfusion h3
          · rw [if_pos (Or.inl ho)] at h3; exact Except.noConfusion h3
        · unfold initGitHub at h3
          rcases hgs : getSecret true w.vaultStore "kv/cloudpulse" "github_token"
            with e' | tok <;> rw [hgs] at h3
          · exact Except.noConfusion h3
          · rw [if_pos (Or.inr hr)] at h3; exact Except.noConfusion h3

/-- C6: whatever the external world does, a startup with `VAULT_TOKEN`,
`GITHUB_OWNER` or `GITHUB_REPO` missing ends in a fatal error of the ordered
initialization chain and never reaches `ListenAndServe`. -/
theorem startup_missing_env_fails_before_listen (env : Env) (w : World)
    (h : env.VAULT_TOKEN = "" ∨ env.GITHUB_OWNER = "" ∨ env.GITHUB_REPO = "") :
    (runMain env w).isFatal = true
    ∧ ∀ p, runMain env w ≠ StartupResult.listening p := by
  have hf := startup_env_chain_fatal env w h
  refine ⟨hf, fun p hp => ?_⟩
  rw [hp] at hf
  exact Bool.noConfusion hf

/-- Witness for C6 at a concrete environment missing `VAULT_TOKEN` and a
healthy world. -/
theorem startup_missing_env_fails_before_listen_witness :
    (runMain env0 w0).isFatal = true
    ∧ runMain env0 w0 ≠ StartupResult.listening "8080" :=
  ⟨(startup_missing_env_fails_before_listen env0 w0 (Or.inl rfl)).1,
   (startup_missing_env_fails_before_listen env0 w0 (Or.inl rfl)).2 "8080"⟩

/-- C7 counterexample: the `src/unnamed/part_004` handler guards only on the
`Values` list, so a series with one value and no timestamps drives
`Timestamps[0]` out of range (the construction is not total: it returns
`none`, the embedding of a Go index panic). -/
theorem ec2_v3_values_nonempty_timestamps_empty_cex :
    ec2UsageHandlerV3 true "i-test"
      (fun _ => Except.ok [{ Id := "cpu", Values := [1], Timestamps := [] }]) = none := rfl

/-- C7 amended: the `src/backend/main.go` handler is total for every
CloudWatch response shape — its guard checks both `Values` and `Timestamps`,
so `Values[0]` and `Timestamps[0]` are never out of range; the
`src/unnamed/part_004` variant is not (see the counterexample). -/
theorem ec2_v2_construction_total (cwInit : Bool) (iid : String) (cw : CWOracle) :
    (ec2UsageHandler cwInit iid cw).isSome = true := by
  by_cases h1 : cwInit = false
  · simp [ec2UsageHandler, h1]
  · by_cases h2 : iid = ""
    · simp [ec2UsageHandler, h1, h2]
    · rcases hcw : cw (metricQueries iid) with e | results
      · simp [ec2UsageHandler, h1, h2, hcw]
      · have hf := foldSteps_v2_isSome results (mapSet [] "InstanceID" (JVal.str iid))
        rcases hm : foldSteps seriesStepV2 (mapSet [] "InstanceID" (JVal.str iid)) results
          with _ | m
        · rw [hm] at hf; simp at hf
        · simp [ec2UsageHandler, ec2ResultMap, h1, h2, hcw, hm]

/-- C8: when the collaborator API returns zero records and no error, the
handler encodes the never-appended nil slice, and `encoding/json` renders a
nil slice as the JSON literal `null`, not as the empty array `[]`. -/
theorem github_users_nil_slice_encodes_null :
    githubUsersHandler true (Except.ok [])
      = { headers := apiHeaders, status := 200, body := Body.jsonUsers none }
    ∧ encodeUsersJSON none = "null\n"
    ∧ encodeUsersJSON (some []) = "[]\n"
    ∧ ("null\n" : String) ≠ "[]\n" :=
  ⟨rfl, rfl, rfl, by decide⟩

/-- C9 counterexample: on the one-segment path `"kv"` the two `getSecret`
versions disagree — `src/backend/main.go` queries the store with mount `"kv"`
and the empty sub-path (here successfully), while `src/unnamed/part_004`
fails fast with a format error. -/
theorem getSecret_one_segment_diverges_cex :
    getSecret true storeCex "kv" "github_token" = Except.ok "tok"
    ∧ getSecretV3 true storeCex "kv" "github_token"
        = Except.error "invalid secret path format 'kv', expected 'mount/path'"
    ∧ getSecret true storeCex "kv" "github_token"
        ≠ getSecretV3 true storeCex "kv" "github_token" := by
  refine ⟨rfl, rfl, ?_⟩
  intro h
  rw [show getSecret true storeCex "kv" "github_token" = Except.ok "tok" from rfl] at h
  rw [show getSecretV3 true storeCex "kv" "github_token"
      = Except.error "invalid secret path format 'kv', expected 'mount/path'" from rfl] at h
  exact Except.noConfusion h

/-- C9 amended: for every secret path with at least two `/`-separated
segments (in particular `"kv/cloudpulse"`, the only path the program uses),
the two `getSecret` versions compute the same mount, the same sub-path and
the same value or error; they differ only on paths with no `/`. -/
theorem getSecret_versions_agree_on_two_segments (ci : Bool) (store : Store)
    (path key : String) (h : 2 ≤ (goSplit path '/').length) :
    getSecret ci store path key = getSecretV3 ci store path key := by
  cases ci with
  | false => rfl
  | true =>
    rcases hp : goSplit path '/' with _ | ⟨a, _ | ⟨b, rest⟩⟩
    · rw [hp] at h; simp at h
    · rw [hp] at h; simp at h
    · simp [getSecret, getSecretV3, goSplitN2, hp, joinWith]

/-- Witness for the amended C9 at the path the backend actually queries. -/
theorem getSecret_versions_agree_on_two_segments_witness :
    2 ≤ (goSplit "kv/cloudpulse" '/').length
    ∧ getSecret true storeKV2 "kv/cloudpulse" "github_token"
        = getSecretV3 true storeKV2 "kv/cloudpulse" "github_token" :=
  ⟨by decide,
   getSecret_versions_agree_on_two_segments true storeKV2 "kv/cloudpulse" "github_token"
     (by decide)⟩

/-- C10: `/api/free-tier-usage` is a constant: any two requests receive the
identical static JSON message, and the handler performs no external call. -/
theorem free_tier_handler_constant_no_calls :
    ∀ r r' : Request,
      freeTierHandler r = freeTierHandler r'
      ∧ (freeTierHandler r).2 = []
      ∧ (freeTierHandler r).1.status = 200
      ∧ (freeTierHandler r).1.body = Body.jsonObj [("message", JVal.str
          "Monitor AWS Free Tier usage via AWS Budgets and the Billing Console. Programmatic access can incur costs.")] :=
  fun _ _ => ⟨rfl, rfl, rfl, rfl⟩
